import Mathlib

/-!
Verification development for the visibility-culling and asynchronous
depth-sort scheduler of the splat viewer (src/Viewer.js).

Modelling conventions.
* Machine floating-point scalars are modelled as exact rationals.  The
  geometric pipeline of gatherSceneNodes (vector length, normalize,
  transformDirection against the inverted camera world matrix) produces,
  for each octree node, two planar angle cosines, a camera distance and a
  node size; these four scalars involve square roots and are therefore
  carried as rational-valued inputs on each node, while every comparison,
  boolean combination, ordering and packing step downstream of them is
  embedded from the source verbatim.
* The camera forward direction used by updateView is the vector (0,0,-1)
  rotated by the camera quaternion; the quaternion application is the
  polynomial formula of the three.js library (Vector3.applyQuaternion)
  and is exact over the rationals.
* The camera translation test of updateView compares a vector length with
  1.0; since both sides are nonnegative this is embedded as the equivalent
  square-root-free comparison of the squared length with 1.
* Typed-array views over ArrayBuffers become plain lists of naturals; a
  write of k ints at a byte offset of 4*j becomes a splice at element
  offset j.  Messages posted to the sort worker are accumulated in a list
  so that submissions are observable.
-/

namespace GS3D

/-- A 3-component vector with exact rational coordinates (models
THREE.Vector3). -/
structure Vec3 where
  x : ℚ
  y : ℚ
  z : ℚ
deriving DecidableEq, Repr

/-- Componentwise difference, models THREE.Vector3.sub. -/
def Vec3.sub (a b : Vec3) : Vec3 :=
  ⟨a.x - b.x, a.y - b.y, a.z - b.z⟩

/-- Dot product, models THREE.Vector3.dot. -/
def Vec3.dot (a b : Vec3) : ℚ :=
  a.x * b.x + a.y * b.y + a.z * b.z

/-- Squared length; the source compares length() with 1.0, which for
nonnegative reals is equivalent to comparing the squared length with 1. -/
def Vec3.normSq (a : Vec3) : ℚ :=
  Vec3.dot a a

/-- A quaternion (models THREE.Quaternion). -/
structure Quat where
  x : ℚ
  y : ℚ
  z : ℚ
  w : ℚ
deriving DecidableEq, Repr

/-- Rotation of a vector by a quaternion, following the three.js
Vector3.applyQuaternion formula: t = 2 (q.xyz × v), result
v + q.w t + q.xyz × t.  Exact polynomial arithmetic. -/
def applyQuaternion (q : Quat) (v : Vec3) : Vec3 :=
  let tx := 2 * (q.y * v.z - q.z * v.y)
  let ty := 2 * (q.z * v.x - q.x * v.z)
  let tz := 2 * (q.x * v.y - q.y * v.x)
  ⟨v.x + q.w * tx + q.y * tz - q.z * ty,
   v.y + q.w * ty + q.z * tx - q.x * tz,
   v.z + q.w * tz + q.x * ty - q.y * tx⟩

/-- The camera forward direction as computed in updateView:
sortViewDir.set(0, 0, -1).applyQuaternion(this.camera.quaternion). -/
def cameraForward (q : Quat) : Vec3 :=
  applyQuaternion q ⟨0, 0, -1⟩

/-- One octree leaf bucket as seen by one gatherSceneNodes pass.  The
fields cameraAngleXZDot, cameraAngleYZDot (planar angle cosines of the
camera-space direction to the node center against the forward axis, with
the orthogonal axis zeroed and the vector renormalized), distanceToNode
(length of center minus camera position) and nodeSize (length of max
minus min) are the camera-frame scalars the source computes with
floating-point square roots; they enter the model as rational inputs.
The indexes field is the member splat index array of the bucket
(node.data.indexes). -/
structure OctreeNode where
  cameraAngleXZDot : ℚ
  cameraAngleYZDot : ℚ
  distanceToNode : ℚ
  nodeSize : ℚ
  indexes : List ℕ
deriving DecidableEq, Repr

/-- MaximumDistanceToSort constant of gatherSceneNodes. -/
def MaximumDistanceToSort : ℚ := 125

/-- outOfFovY test: cameraAngleYZDot < cosFovYOver2 - 0.4. -/
def outOfFovY (cosFovYOver2 : ℚ) (n : OctreeNode) : Bool :=
  decide (n.cameraAngleYZDot < cosFovYOver2 - 2/5)

/-- outOfFovX test: cameraAngleXZDot < cosFovXOver2 - 0.4. -/
def outOfFovX (cosFovXOver2 : ℚ) (n : OctreeNode) : Bool :=
  decide (n.cameraAngleXZDot < cosFovXOver2 - 2/5)

/-- The continue condition of the gather loop:
!gatherAllNodes && ((outOfFovX || outOfFovY) && distanceToNode > ns). -/
def culled (gatherAllNodes : Bool) (cosFovXOver2 cosFovYOver2 : ℚ)
    (n : OctreeNode) : Bool :=
  !gatherAllNodes &&
    ((outOfFovX cosFovXOver2 n || outOfFovY cosFovYOver2 n) &&
      decide (n.distanceToNode > n.nodeSize))

/-- The candidate list built by the gather loop (nodeRenderList before
sorting): the nodes of octree.nodesWithIndexes that are not culled, in
their original order. -/
def gatherCandidates (gatherAllNodes : Bool) (cosFovXOver2 cosFovYOver2 : ℚ)
    (nodes : List OctreeNode) : List OctreeNode :=
  nodes.filter (fun n => !culled gatherAllNodes cosFovXOver2 cosFovYOver2 n)

/-- The comparator of nodeRenderList.sort: comparator(a,b) returns 1 when
a.data.distanceToNode > b.data.distanceToNode and -1 otherwise, so a may
stay before b exactly when a.distanceToNode <= b.distanceToNode. -/
def nodeLE (a b : OctreeNode) : Bool :=
  decide (a.distanceToNode ≤ b.distanceToNode)

/-- The candidate list after the distance sort of gatherSceneNodes. -/
def orderedCandidates (gatherAllNodes : Bool) (cosFovXOver2 cosFovYOver2 : ℚ)
    (nodes : List OctreeNode) : List OctreeNode :=
  (gatherCandidates gatherAllNodes cosFovXOver2 cosFovYOver2 nodes).mergeSort nodeLE

/-- shouldSort test of the packing loop:
node.data.distanceToNode <= MaximumDistanceToSort. -/
def shouldSortNode (n : OctreeNode) : Bool :=
  decide (n.distanceToNode ≤ MaximumDistanceToSort)

/-- The index sequence written by the packing loop: the member index
arrays of the sorted candidate nodes, concatenated in sorted order at
increasing offsets. -/
def packedIndexes (sorted : List OctreeNode) : List ℕ :=
  (sorted.map OctreeNode.indexes).flatten

/-- Effect of the packing loop on the in index array: the packed
sequence overwrites the front of the array (Uint32Array views at byte
offsets 0, 4*k, ...), entries beyond it keep their previous content. -/
def writeIn (packed old : List ℕ) : List ℕ :=
  packed ++ old.drop packed.length

/-- A sort job message posted to the sort worker by updateView, with the
fields of the posted object. -/
structure SortJob where
  view : List ℚ
  cameraPosition : Vec3
  vertexRenderCount : ℕ
  vertexSortCount : ℕ
  inIndexBuffer : List ℕ
deriving DecidableEq, Repr

/-- Per-frame inputs of gatherSceneNodes that the camera and viewport
determine: the two half-field-of-view cosines (cos of atan of half
viewport extent over focal length) and the octree nodes with their
camera-frame scalars for this pose. -/
structure GatherInput where
  cosFovXOver2 : ℚ
  cosFovYOver2 : ℚ
  nodes : List OctreeNode
deriving DecidableEq, Repr

/-- The camera as read by updateView: world position, orientation
quaternion, and the premultiplied projection times inverted world matrix
that the source copies into tempMatrix for the job message. -/
structure Camera where
  position : Vec3
  quaternion : Quat
  viewProj : List ℚ
deriving DecidableEq, Repr

/-- The persistent Viewer state touched by updateView, gatherSceneNodes
and the sort worker message handler: the job flag sortRunning, the in
and out index arrays, the per-pass counts, the published GPU-facing
splatIndex attribute and instance count, the camera snapshot
(lastSortViewPos, lastSortViewDir), the persistent scratch sortViewDir
closed over by updateView, the messages posted to the worker, and the
readiness flag. -/
structure ViewerState where
  sortRunning : Bool
  inIndexArray : List ℕ
  outIndexArray : List ℕ
  vertexRenderCount : ℕ
  vertexSortCount : ℕ
  splatIndexAttr : List ℕ
  instanceCount : ℕ
  lastSortViewPos : Vec3
  lastSortViewDir : Vec3
  sortViewDir : Vec3
  postedJobs : List SortJob
  postedPositions : ℕ
  splatRenderingInitialized : Bool
deriving DecidableEq, Repr

/-- gatherSceneNodes(gatherAllNodes): filter the octree nodes through the
cull test accumulating verticesToCopy, sort the survivors by
distanceToNode, then pack their index arrays into the in index array
while accumulating vertexSortCount over the shouldSort nodes. -/
def gatherSceneNodes (gatherAllNodes : Bool) (gi : GatherInput)
    (s : ViewerState) : ViewerState :=
  let candidates := gatherCandidates gatherAllNodes gi.cosFovXOver2 gi.cosFovYOver2 gi.nodes
  let verticesToCopy := (candidates.map (fun n => n.indexes.length)).sum
  let sorted := candidates.mergeSort nodeLE
  { s with
    vertexRenderCount := verticesToCopy
    vertexSortCount := ((sorted.filter shouldSortNode).map (fun n => n.indexes.length)).sum
    inIndexArray := writeIn (packedIndexes sorted) s.inIndexArray }

/-- The object posted with postMessage under the sort key, built from the
state right after gatherSceneNodes ran. -/
def mkSortJob (cam : Camera) (s : ViewerState) : SortJob :=
  { view := cam.viewProj
    cameraPosition := cam.position
    vertexRenderCount := s.vertexRenderCount
    vertexSortCount := s.vertexSortCount
    inIndexBuffer := s.inIndexArray }

/-- The part of updateView past the staleness checks: if no sort is
running, gatherSceneNodes refills the in index array and the counts, the
sortRunning flag is raised, the job is posted, and the camera snapshot is
recorded from the camera position and the value dir that the scratch
sortViewDir holds at this point; if a sort is running, nothing happens. -/
def updateViewSubmitStage (dir : Vec3) (gatherAllNodes : Bool) (cam : Camera)
    (gi : GatherInput) (s1 : ViewerState) : ViewerState :=
  if s1.sortRunning then s1
  else
    let s2 := gatherSceneNodes gatherAllNodes gi s1
    { s2 with
      sortRunning := true
      postedJobs := s2.postedJobs ++ [mkSortJob cam s2]
      lastSortViewPos := cam.position
      lastSortViewDir := dir }

/-- updateView(force, gatherAllNodes).  The source guards the staleness
block with if (!force): when force is false the scratch sortViewDir is
recomputed from the camera quaternion and the two staleness tests run
(rotation: dot with lastSortViewDir at most 0.95; translation: offset
length at least 1.0, embedded squared); if neither fires the call returns
early with only the scratch refreshed.  When force is true that block is
skipped, so sortViewDir keeps its previous value, and control falls
through to the submission stage directly. -/
def updateView (force gatherAllNodes : Bool) (cam : Camera) (gi : GatherInput)
    (s : ViewerState) : ViewerState :=
  if force then
    updateViewSubmitStage s.sortViewDir gatherAllNodes cam gi s
  else
    let dir := cameraForward cam.quaternion
    let s1 := { s with sortViewDir := dir }
    if decide (Vec3.dot dir s.lastSortViewDir ≤ 95/100) ||
        decide (1 ≤ Vec3.normSq (Vec3.sub cam.position s.lastSortViewPos)) then
      updateViewSubmitStage dir gatherAllNodes cam gi s1
    else s1

/-- The four message kinds delivered by the sort worker, as dispatched by
the onmessage handler installed in loadFile.  sortDone carries the
content of the out index buffer as produced by the worker together with
the render count; sortSetupPhase1Complete carries the out buffer handed
over by the worker. -/
inductive WorkerMsg where
  | sortDone (outIndex : List ℕ) (vertexRenderCount : ℕ)
  | sortCanceled
  | sortSetupPhase1Complete (outIndexBuffer : List ℕ)
  | sortSetupComplete
deriving DecidableEq, Repr

/-- updateSplatMeshIndexes(indexes, renderVertexCount): write the
splatIndex attribute from indexes and set the instance count of the
geometry to renderVertexCount. -/
def updateSplatMeshIndexes (indexes : List ℕ) (renderVertexCount : ℕ)
    (s : ViewerState) : ViewerState :=
  { s with splatIndexAttr := indexes, instanceCount := renderVertexCount }

/-- The sortWorker.onmessage handler.  sortDone: clear sortRunning and
publish the out index array with the delivered render count.
sortCanceled: clear sortRunning only.  sortSetupPhase1Complete: post the
position data (counted in postedPositions), install the out index array
over the transferred buffer, seed the in index array with the identity
permutation over vertexCount.  sortSetupComplete: publish the out index
array with the full vertex count, run updateView(true, true), and mark
splat rendering initialized. -/
def handleSortWorkerMessage (msg : WorkerMsg) (vertexCount : ℕ) (cam : Camera)
    (gi : GatherInput) (s : ViewerState) : ViewerState :=
  match msg with
  | .sortDone outIndex n =>
      let s1 := { s with sortRunning := false, outIndexArray := outIndex }
      updateSplatMeshIndexes s1.outIndexArray n s1
  | .sortCanceled =>
      { s with sortRunning := false }
  | .sortSetupPhase1Complete outBuf =>
      { s with
        postedPositions := s.postedPositions + 1
        outIndexArray := outBuf
        inIndexArray := List.range vertexCount }
  | .sortSetupComplete =>
      let s1 := updateSplatMeshIndexes s.outIndexArray vertexCount s
      let s2 := updateView true true cam gi s1
      { s2 with splatRenderingInitialized := true }

/-! Concrete sample data used by the witness and counterexample theorems. -/

/-- A sample idle viewer state with a previously published order. -/
def sIdle : ViewerState :=
  { sortRunning := false
    inIndexArray := [5, 6, 7]
    outIndexArray := [2, 1, 0]
    vertexRenderCount := 3
    vertexSortCount := 3
    splatIndexAttr := [2, 1, 0]
    instanceCount := 3
    lastSortViewPos := ⟨0, 0, 0⟩
    lastSortViewDir := ⟨0, 0, -1⟩
    sortViewDir := ⟨0, 0, -1⟩
    postedJobs := []
    postedPositions := 1
    splatRenderingInitialized := true }

/-- The sample state with a sort job in flight. -/
def sBusy : ViewerState :=
  { sIdle with sortRunning := true }

/-- A camera at the origin with the identity orientation. -/
def cam0 : Camera :=
  { position := ⟨0, 0, 0⟩, quaternion := ⟨0, 0, 0, 1⟩, viewProj := [] }

/-- A camera rotated about the vertical axis by the unit quaternion
(0, 3/5, 0, 4/5), whose forward direction is (-24/25, 0, -7/25). -/
def camRot : Camera :=
  { position := ⟨0, 0, 0⟩, quaternion := ⟨0, 3/5, 0, 4/5⟩, viewProj := [] }

/-- A sample gather input with no octree nodes. -/
def gi0 : GatherInput :=
  { cosFovXOver2 := 1/2, cosFovYOver2 := 1/2, nodes := [] }

/-! Helper lemmas shared by several claims. -/

/-- gatherSceneNodes does not touch the posted job list. -/
theorem gatherSceneNodes_postedJobs (g : Bool) (gi : GatherInput) (s : ViewerState) :
    (gatherSceneNodes g gi s).postedJobs = s.postedJobs := rfl

/-- gatherSceneNodes does not touch the sortRunning flag. -/
theorem gatherSceneNodes_sortRunning (g : Bool) (gi : GatherInput) (s : ViewerState) :
    (gatherSceneNodes g gi s).sortRunning = s.sortRunning := rfl

/-- The submission stage is a no-op while a sort is in flight. -/
theorem submitStage_busy (dir : Vec3) (g : Bool) (cam : Camera) (gi : GatherInput)
    (s1 : ViewerState) (h : s1.sortRunning = true) :
    updateViewSubmitStage dir g cam gi s1 = s1 := by
  simp [updateViewSubmitStage, h]

/-- The submission stage on an idle state gathers, raises the flag,
posts one job and records the snapshot. -/
theorem submitStage_idle (dir : Vec3) (g : Bool) (cam : Camera) (gi : GatherInput)
    (s1 : ViewerState) (h : s1.sortRunning = false) :
    updateViewSubmitStage dir g cam gi s1 =
      { gatherSceneNodes g gi s1 with
        sortRunning := true
        postedJobs := (gatherSceneNodes g gi s1).postedJobs ++
          [mkSortJob cam (gatherSceneNodes g gi s1)]
        lastSortViewPos := cam.position
        lastSortViewDir := dir } := by
  simp [updateViewSubmitStage, h]

/-- A forced updateView is exactly the submission stage with the stale
scratch direction. -/
theorem updateView_force (g : Bool) (cam : Camera) (gi : GatherInput)
    (s : ViewerState) :
    updateView true g cam gi s = updateViewSubmitStage s.sortViewDir g cam gi s := rfl

/-- A non-forced updateView refreshes the scratch direction, then either
runs the submission stage or returns early according to the two
staleness tests. -/
theorem updateView_noforce (g : Bool) (cam : Camera) (gi : GatherInput)
    (s : ViewerState) :
    updateView false g cam gi s =
      (if decide (Vec3.dot (cameraForward cam.quaternion) s.lastSortViewDir ≤ 95/100) ||
          decide (1 ≤ Vec3.normSq (Vec3.sub cam.position s.lastSortViewPos)) then
        updateViewSubmitStage (cameraForward cam.quaternion) g cam gi
          { s with sortViewDir := cameraForward cam.quaternion }
      else { s with sortViewDir := cameraForward cam.quaternion }) := rfl

/-- While a sort is in flight, updateView only rewrites the scratch
sortViewDir (and only when force is false); everything else is kept. -/
theorem updateView_busy (force g : Bool) (cam : Camera) (gi : GatherInput)
    (s : ViewerState) (h : s.sortRunning = true) :
    updateView force g cam gi s =
      { s with sortViewDir := if force then s.sortViewDir else cameraForward cam.quaternion } := by
  cases force with
  | true =>
      rw [updateView_force, submitStage_busy _ _ _ _ _ h]
      rfl
  | false =>
      rw [updateView_noforce]
      split
      · exact submitStage_busy _ _ _ _ _ h
      · rfl

/-- A list is never equal to itself extended by one element. -/
theorem append_singleton_ne {α : Type} (l : List α) (a : α) : l ++ [a] ≠ l := by
  intro h
  have := congrArg List.length h
  simp at this

/-- One updateView call either leaves the flag and job list alone, or
performs the Idle to InFlight transition while posting exactly one job. -/
theorem updateView_transition (force g : Bool) (cam : Camera) (gi : GatherInput)
    (s : ViewerState) :
    ((updateView force g cam gi s).sortRunning = s.sortRunning ∧
      (updateView force g cam gi s).postedJobs = s.postedJobs) ∨
    (s.sortRunning = false ∧ (updateView force g cam gi s).sortRunning = true ∧
      ∃ j, (updateView force g cam gi s).postedJobs = s.postedJobs ++ [j]) := by
  by_cases hs : s.sortRunning = true
  · left
    rw [updateView_busy force g cam gi s hs]
    exact ⟨rfl, rfl⟩
  · have hs2 : s.sortRunning = false := by simpa using hs
    cases force with
    | true =>
        right
        rw [updateView_force, submitStage_idle s.sortViewDir g cam gi s hs2]
        exact ⟨hs2, rfl, ⟨_, rfl⟩⟩
    | false =>
        rw [updateView_noforce]
        cases hb : (decide (Vec3.dot (cameraForward cam.quaternion) s.lastSortViewDir ≤ 95/100) ||
            decide (1 ≤ Vec3.normSq (Vec3.sub cam.position s.lastSortViewPos))) with
        | true =>
            right
            rw [if_pos rfl, submitStage_idle (cameraForward cam.quaternion) g cam gi
              { s with sortViewDir := cameraForward cam.quaternion } hs2]
            exact ⟨hs2, rfl, ⟨_, rfl⟩⟩
        | false =>
            left
            rw [if_neg Bool.false_ne_true]
            exact ⟨rfl, rfl⟩

/-- The sort comparator is transitive. -/
theorem nodeLE_trans (a b c : OctreeNode) (hab : nodeLE a b = true)
    (hbc : nodeLE b c = true) : nodeLE a c = true := by
  simp only [nodeLE, decide_eq_true_eq] at hab hbc ⊢
  exact le_trans hab hbc

/-- The sort comparator is total. -/
theorem nodeLE_total (a b : OctreeNode) : (nodeLE a b || nodeLE b a) = true := by
  simp only [nodeLE, Bool.or_eq_true, decide_eq_true_eq]
  exact le_total _ _

/-- The sorted candidate list is non-decreasing in distanceToNode. -/
theorem orderedCandidates_sorted (g : Bool) (cx cy : ℚ) (nodes : List OctreeNode) :
    List.Sorted (fun a b : OctreeNode => a.distanceToNode ≤ b.distanceToNode)
      (orderedCandidates g cx cy nodes) := by
  have h := List.sorted_mergeSort nodeLE_trans nodeLE_total (gatherCandidates g cx cy nodes)
  exact List.Pairwise.imp (fun hab => by simpa [nodeLE] using hab) h

/-- On a list non-decreasing in distanceToNode, the nodes within the
fine-sort distance are an initial segment: filtering equals takeWhile. -/
theorem sorted_filter_shouldSort_eq_takeWhile (l : List OctreeNode)
    (hl : List.Sorted (fun a b : OctreeNode => a.distanceToNode ≤ b.distanceToNode) l) :
    l.filter shouldSortNode = l.takeWhile shouldSortNode := by
  induction l with
  | nil => rfl
  | cons a t ih =>
      rw [List.sorted_cons] at hl
      cases hp : shouldSortNode a with
      | true =>
          rw [List.filter_cons, if_pos hp, List.takeWhile_cons, if_pos hp, ih hl.2]
      | false =>
          rw [List.filter_cons, if_neg (by simp [hp]), List.takeWhile_cons,
            if_neg (by simp [hp]), List.filter_eq_nil_iff]
          intro b hb
          have hab := hl.1 b hb
          have hpa : ¬(a.distanceToNode ≤ MaximumDistanceToSort) := by
            simpa [shouldSortNode] using hp
          simp only [shouldSortNode, decide_eq_true_eq]
          intro hble
          exact hpa (le_trans hab hble)

/-- The packed sequence over the sorted candidates has as many entries
as the verticesToCopy accumulator counted over the unsorted candidates. -/
theorem packedIndexes_length_perm (l : List OctreeNode) :
    (packedIndexes (l.mergeSort nodeLE)).length
      = (l.map (fun n => n.indexes.length)).sum := by
  rw [packedIndexes, List.length_flatten, List.map_map]
  exact List.Perm.sum_eq (List.Perm.map _ (List.mergeSort_perm l nodeLE))

/-- C1 (amended): with gatherAllNodes false, a bucket of the octree node
list is excluded from the candidate list exactly when at least one of
the two planar angle tests fails AND its distance to the camera strictly
exceeds its size metric; equivalently, no bucket passing both angular
tests is ever excluded, and no bucket with distance at most its size is
ever excluded. -/
theorem C1_cull_characterization (cx cy : ℚ) (nodes : List OctreeNode)
    (n : OctreeNode) (h : n ∈ nodes) :
    n ∉ gatherCandidates false cx cy nodes ↔
      ((outOfFovX cx n = true ∨ outOfFovY cy n = true) ∧
        n.distanceToNode > n.nodeSize) := by
  have key : (n ∉ gatherCandidates false cx cy nodes) ↔ culled false cx cy n = true := by
    rw [gatherCandidates]
    constructor
    · intro hn
      by_contra hc
      have hc2 : culled false cx cy n = false := by simpa using hc
      exact hn (List.mem_filter.mpr ⟨h, by simp [hc2]⟩)
    · intro hc hmem
      have h2 := (List.mem_filter.mp hmem).2
      simp [hc] at h2
  rw [key, culled]
  simp [Bool.and_eq_true, Bool.or_eq_true, decide_eq_true_eq]

/-- A bucket whose direction passes the vertical angle test (planar
cosine 1) but fails the horizontal one (planar cosine 0), at distance 10
with size 1. -/
def nodeC1 : OctreeNode :=
  { cameraAngleXZDot := 0
    cameraAngleYZDot := 1
    distanceToNode := 10
    nodeSize := 1
    indexes := [0] }

/-- Counterexample to C1 as stated: with both half-fov cosines 1/2, the
bucket nodeC1 passes the vertical angle test, yet the culler excludes it
(the candidate list is empty), because the code culls when EITHER axis
test fails, not only when both fail. -/
theorem C1_counterexample :
    outOfFovY (1/2) nodeC1 = false ∧
    gatherCandidates false (1/2) (1/2) [nodeC1] = [] := by
  have h1 : outOfFovY (1/2) nodeC1 = false := by
    simp only [outOfFovY, nodeC1, decide_eq_false_iff_not]
    norm_num
  have hx : outOfFovX (1/2) nodeC1 = true := by
    simp only [outOfFovX, nodeC1, decide_eq_true_eq]
    norm_num
  have h2 : culled false (1/2) (1/2) nodeC1 = true := by
    simp only [culled, hx, Bool.not_false, Bool.true_and, Bool.true_or,
      Bool.and_eq_true, decide_eq_true_eq]
    show (10:ℚ) > 1
    norm_num
  refine ⟨h1, ?_⟩
  simp only [gatherCandidates, List.filter_cons, h2]
  simp

/-- Witness for the amended C1 at the concrete bucket nodeC1. -/
theorem C1_cull_characterization_attempt :
    nodeC1 ∈ [nodeC1] ∧
    (nodeC1 ∉ gatherCandidates false (1/2) (1/2) [nodeC1] ↔
      ((outOfFovX (1/2) nodeC1 = true ∨ outOfFovY (1/2) nodeC1 = true) ∧
        nodeC1.distanceToNode > nodeC1.nodeSize)) :=
  ⟨List.Mem.head _,
    C1_cull_characterization (1/2) (1/2) [nodeC1] nodeC1 (List.Mem.head _)⟩

/-- C6: after the Node Orderer, the candidate list is non-decreasing in
distanceToNode (ties in any order, which the statement does not
constrain). -/
theorem C6_candidate_list_nondecreasing (g : Bool) (cx cy : ℚ)
    (nodes : List OctreeNode) :
    List.Sorted (fun a b : OctreeNode => a.distanceToNode ≤ b.distanceToNode)
      (orderedCandidates g cx cy nodes) :=
  orderedCandidates_sorted g cx cy nodes

/-- C3: after a gatherSceneNodes pass, the first vertexRenderCount
entries of the in index array are exactly the concatenation of the
member index arrays of the candidate buckets in sorted bucket order. -/
theorem C3_pack_is_concatenation (g : Bool) (gi : GatherInput) (s : ViewerState) :
    ((gatherSceneNodes g gi s).inIndexArray).take
        ((gatherSceneNodes g gi s).vertexRenderCount)
      = packedIndexes (orderedCandidates g gi.cosFovXOver2 gi.cosFovYOver2 gi.nodes) := by
  show (writeIn
      (packedIndexes
        ((gatherCandidates g gi.cosFovXOver2 gi.cosFovYOver2 gi.nodes).mergeSort nodeLE))
      s.inIndexArray).take
      (((gatherCandidates g gi.cosFovXOver2 gi.cosFovYOver2 gi.nodes).map
        (fun n => n.indexes.length)).sum) = _
  rw [← packedIndexes_length_perm, writeIn]
  exact List.take_left _ _

/-- C4: the candidate buckets within MaximumDistanceToSort occupy a
contiguous initial segment of the sorted list (their packed indexes are
an initial segment of the packed sequence, every bucket of the segment
is within 125, every bucket after it is beyond 125), and vertexSortCount
is exactly the total member count of that segment. -/
theorem C4_fine_sort_band (g : Bool) (gi : GatherInput) (s : ViewerState) :
    (∃ t, packedIndexes
        ((orderedCandidates g gi.cosFovXOver2 gi.cosFovYOver2 gi.nodes).takeWhile
          shouldSortNode) ++ t
      = packedIndexes (orderedCandidates g gi.cosFovXOver2 gi.cosFovYOver2 gi.nodes)) ∧
    (∀ n, n ∈ (orderedCandidates g gi.cosFovXOver2 gi.cosFovYOver2 gi.nodes).takeWhile
        shouldSortNode → n.distanceToNode ≤ 125) ∧
    (∀ n, n ∈ (orderedCandidates g gi.cosFovXOver2 gi.cosFovYOver2 gi.nodes).dropWhile
        shouldSortNode → ¬(n.distanceToNode ≤ 125)) ∧
    (gatherSceneNodes g gi s).vertexSortCount
      = (((orderedCandidates g gi.cosFovXOver2 gi.cosFovYOver2 gi.nodes).takeWhile
          shouldSortNode).map (fun n => n.indexes.length)).sum := by
  have hs := orderedCandidates_sorted g gi.cosFovXOver2 gi.cosFovYOver2 gi.nodes
  have hft := sorted_filter_shouldSort_eq_takeWhile
    (orderedCandidates g gi.cosFovXOver2 gi.cosFovYOver2 gi.nodes) hs
  have h1 : ((orderedCandidates g gi.cosFovXOver2 gi.cosFovYOver2 gi.nodes).takeWhile
      shouldSortNode).filter shouldSortNode
      = (orderedCandidates g gi.cosFovXOver2 gi.cosFovYOver2 gi.nodes).takeWhile
        shouldSortNode :=
    List.filter_eq_self.mpr (fun a ha => List.mem_takeWhile_imp ha)
  refine ⟨⟨packedIndexes ((orderedCandidates g gi.cosFovXOver2 gi.cosFovYOver2
    gi.nodes).dropWhile shouldSortNode), ?_⟩, ?_, ?_, ?_⟩
  · rw [packedIndexes, packedIndexes, ← List.flatten_append, ← List.map_append,
      List.takeWhile_append_dropWhile]
    rfl
  · intro n hn
    have := List.mem_takeWhile_imp hn
    simpa [shouldSortNode, MaximumDistanceToSort] using this
  · have h5 : (orderedCandidates g gi.cosFovXOver2 gi.cosFovYOver2 gi.nodes).takeWhile
        shouldSortNode ++
        ((orderedCandidates g gi.cosFovXOver2 gi.cosFovYOver2 gi.nodes).dropWhile
          shouldSortNode).filter shouldSortNode
        = (orderedCandidates g gi.cosFovXOver2 gi.cosFovYOver2 gi.nodes).takeWhile
          shouldSortNode := by
      calc (orderedCandidates g gi.cosFovXOver2 gi.cosFovYOver2 gi.nodes).takeWhile
            shouldSortNode ++
            ((orderedCandidates g gi.cosFovXOver2 gi.cosFovYOver2 gi.nodes).dropWhile
              shouldSortNode).filter shouldSortNode
          = ((orderedCandidates g gi.cosFovXOver2 gi.cosFovYOver2 gi.nodes).takeWhile
              shouldSortNode).filter shouldSortNode ++
            ((orderedCandidates g gi.cosFovXOver2 gi.cosFovYOver2 gi.nodes).dropWhile
              shouldSortNode).filter shouldSortNode := by rw [h1]
        _ = (orderedCandidates g gi.cosFovXOver2 gi.cosFovYOver2 gi.nodes).filter
              shouldSortNode := by
            rw [← List.filter_append, List.takeWhile_append_dropWhile]
        _ = (orderedCandidates g gi.cosFovXOver2 gi.cosFovYOver2 gi.nodes).takeWhile
              shouldSortNode := hft
    have h4 : ((orderedCandidates g gi.cosFovXOver2 gi.cosFovYOver2 gi.nodes).dropWhile
        shouldSortNode).filter shouldSortNode = [] :=
      List.append_cancel_left (by rw [h5, List.append_nil])
    intro n hn
    have := List.filter_eq_nil_iff.mp h4 n hn
    simpa [shouldSortNode, MaximumDistanceToSort] using this
  · show ((((gatherCandidates g gi.cosFovXOver2 gi.cosFovYOver2 gi.nodes).mergeSort
        nodeLE).filter shouldSortNode).map (fun n => n.indexes.length)).sum = _
    rw [show ((gatherCandidates g gi.cosFovXOver2 gi.cosFovYOver2 gi.nodes).mergeSort
        nodeLE) = orderedCandidates g gi.cosFovXOver2 gi.cosFovYOver2 gi.nodes from rfl,
      hft]

/-- Witness for C4: the fine-sort count equation at a concrete empty
gather input and state. -/
theorem C4_fine_sort_band_attempt :
    (gatherSceneNodes false gi0 sIdle).vertexSortCount
      = (((orderedCandidates false gi0.cosFovXOver2 gi0.cosFovYOver2 gi0.nodes).takeWhile
          shouldSortNode).map (fun n => n.indexes.length)).sum :=
  (C4_fine_sort_band false gi0 sIdle).2.2.2

/-- C2: the job state is the boolean sortRunning flag, so it takes only
the two values Idle (false) and InFlight (true).  updateView while
InFlight is a dropped no-op: the flag, the in index array and the posted
job list are unchanged.  updateView changes the flag only from Idle to
InFlight and only together with posting exactly one sort job; the done
and canceled messages set the flag to Idle; the first setup message
leaves it alone; the second setup message goes through updateView and
hence obeys the same transition discipline. -/
theorem C2_job_state_machine :
    (∀ (force g : Bool) (cam : Camera) (gi : GatherInput) (s : ViewerState),
      s.sortRunning = true →
        (updateView force g cam gi s).sortRunning = true ∧
        (updateView force g cam gi s).inIndexArray = s.inIndexArray ∧
        (updateView force g cam gi s).postedJobs = s.postedJobs) ∧
    (∀ (force g : Bool) (cam : Camera) (gi : GatherInput) (s : ViewerState),
      ((updateView force g cam gi s).sortRunning = s.sortRunning ∧
        (updateView force g cam gi s).postedJobs = s.postedJobs) ∨
      (s.sortRunning = false ∧ (updateView force g cam gi s).sortRunning = true ∧
        ∃ j, (updateView force g cam gi s).postedJobs = s.postedJobs ++ [j])) ∧
    (∀ (out : List ℕ) (n vc : ℕ) (cam : Camera) (gi : GatherInput) (s : ViewerState),
      (handleSortWorkerMessage (.sortDone out n) vc cam gi s).sortRunning = false) ∧
    (∀ (vc : ℕ) (cam : Camera) (gi : GatherInput) (s : ViewerState),
      (handleSortWorkerMessage .sortCanceled vc cam gi s).sortRunning = false) ∧
    (∀ (ob : List ℕ) (vc : ℕ) (cam : Camera) (gi : GatherInput) (s : ViewerState),
      (handleSortWorkerMessage (.sortSetupPhase1Complete ob) vc cam gi s).sortRunning
        = s.sortRunning) ∧
    (∀ (vc : ℕ) (cam : Camera) (gi : GatherInput) (s : ViewerState),
      ((handleSortWorkerMessage .sortSetupComplete vc cam gi s).sortRunning = s.sortRunning ∧
        (handleSortWorkerMessage .sortSetupComplete vc cam gi s).postedJobs = s.postedJobs) ∨
      (s.sortRunning = false ∧
        (handleSortWorkerMessage .sortSetupComplete vc cam gi s).sortRunning = true ∧
        ∃ j, (handleSortWorkerMessage .sortSetupComplete vc cam gi s).postedJobs
          = s.postedJobs ++ [j])) := by
  refine ⟨?_, updateView_transition, fun _ _ _ _ _ _ => rfl, fun _ _ _ _ => rfl,
    fun _ _ _ _ _ => rfl, ?_⟩
  · intro force g cam gi s hbusy
    rw [updateView_busy force g cam gi s hbusy]
    exact ⟨hbusy, rfl, rfl⟩
  · intro vc cam gi s
    have ht := updateView_transition true true cam gi
      (updateSplatMeshIndexes s.outIndexArray vc s)
    rcases ht with ⟨h1, h2⟩ | ⟨h1, h2, j, h3⟩
    · exact Or.inl ⟨h1, h2⟩
    · exact Or.inr ⟨h1, h2, j, h3⟩

/-- C5: with force false and no job in flight, updateView posts a job
exactly when the rotation test (forward dot with the last submitted
forward at most 0.95) or the translation test (offset length at least
one world unit, embedded as squared length at least one) fires, both
boundaries included; with force true it posts unconditionally. -/
theorem C5_view_change_policy (g : Bool) (cam : Camera) (gi : GatherInput)
    (s : ViewerState) (h : s.sortRunning = false) :
    ((updateView false g cam gi s).postedJobs ≠ s.postedJobs ↔
      (Vec3.dot (cameraForward cam.quaternion) s.lastSortViewDir ≤ 95/100 ∨
        1 ≤ Vec3.normSq (Vec3.sub cam.position s.lastSortViewPos))) ∧
    (updateView true g cam gi s).postedJobs ≠ s.postedJobs := by
  constructor
  · rw [updateView_noforce]
    cases hb : (decide (Vec3.dot (cameraForward cam.quaternion) s.lastSortViewDir ≤ 95/100) ||
        decide (1 ≤ Vec3.normSq (Vec3.sub cam.position s.lastSortViewPos))) with
    | true =>
        rw [if_pos rfl, submitStage_idle (cameraForward cam.quaternion) g cam gi
          { s with sortViewDir := cameraForward cam.quaternion } h]
        refine iff_of_true (append_singleton_ne _ _) ?_
        simpa [Bool.or_eq_true, decide_eq_true_eq] using hb
    | false =>
        rw [if_neg Bool.false_ne_true]
        refine iff_of_false (by simp) ?_
        simp only [Bool.or_eq_false_iff, decide_eq_false_iff_not] at hb
        rintro (hr | hp)
        · exact hb.1 hr
        · exact hb.2 hp
  · rw [updateView_force, submitStage_idle s.sortViewDir g cam gi s h]
    exact append_singleton_ne _ _

/-- C7 (amended): the camera snapshot (lastSortViewPos, lastSortViewDir)
changes only on calls that post a job.  Every posting call records the
current camera position; the recorded direction is the scratch
sortViewDir at submission time: the current camera forward for
non-forced calls, but for forced calls the forward computed during the
most recent non-forced updateView call, which may be stale. -/
theorem C7_camera_snapshot (force g : Bool) (cam : Camera) (gi : GatherInput)
    (s : ViewerState) :
    ((updateView force g cam gi s).postedJobs = s.postedJobs →
      (updateView force g cam gi s).lastSortViewPos = s.lastSortViewPos ∧
      (updateView force g cam gi s).lastSortViewDir = s.lastSortViewDir) ∧
    ((updateView force g cam gi s).postedJobs ≠ s.postedJobs →
      (updateView force g cam gi s).lastSortViewPos = cam.position ∧
      (updateView force g cam gi s).lastSortViewDir =
        (if force then s.sortViewDir else cameraForward cam.quaternion)) := by
  by_cases hs : s.sortRunning = true
  · rw [updateView_busy force g cam gi s hs]
    exact ⟨fun _ => ⟨rfl, rfl⟩, fun hne => absurd rfl hne⟩
  · have hs2 : s.sortRunning = false := by simpa using hs
    cases force with
    | true =>
        rw [updateView_force, submitStage_idle s.sortViewDir g cam gi s hs2]
        refine ⟨fun heq => absurd heq (append_singleton_ne _ _), fun _ => ⟨rfl, ?_⟩⟩
        simp
    | false =>
        rw [updateView_noforce]
        cases hb : (decide (Vec3.dot (cameraForward cam.quaternion) s.lastSortViewDir
            ≤ 95/100) ||
            decide (1 ≤ Vec3.normSq (Vec3.sub cam.position s.lastSortViewPos))) with
        | true =>
            rw [if_pos rfl, submitStage_idle (cameraForward cam.quaternion) g cam gi
              { s with sortViewDir := cameraForward cam.quaternion } hs2]
            refine ⟨fun heq => absurd heq (append_singleton_ne _ _), fun _ => ⟨rfl, ?_⟩⟩
            simp
        | false =>
            rw [if_neg Bool.false_ne_true]
            exact ⟨fun _ => ⟨rfl, rfl⟩, fun hne => absurd rfl hne⟩

/-- Counterexample to C7 as stated: a forced updateView on an idle state
after a camera rotation posts a job, yet records as snapshot direction
the stale scratch value (0,0,-1) rather than the forward direction in
effect for that submission, because the forced path skips the scratch
recomputation. -/
theorem C7_counterexample :
    (updateView true false camRot gi0 sIdle).postedJobs ≠ sIdle.postedJobs ∧
    (updateView true false camRot gi0 sIdle).lastSortViewDir
      ≠ cameraForward camRot.quaternion := by
  rw [updateView_force, submitStage_idle sIdle.sortViewDir false camRot gi0 sIdle rfl]
  refine ⟨append_singleton_ne _ _, ?_⟩
  show sIdle.sortViewDir ≠ cameraForward camRot.quaternion
  intro heq
  have hz := congrArg Vec3.z heq
  simp only [sIdle, cameraForward, applyQuaternion, camRot] at hz
  norm_num at hz

/-- Witness for the amended C7 at a concrete in-flight state: no job is
posted and the snapshot direction is unchanged. -/
theorem C7_camera_snapshot_attempt :
    (updateView true false cam0 gi0 sBusy).lastSortViewDir = sBusy.lastSortViewDir :=
  ((C7_camera_snapshot true false cam0 gi0 sBusy).1
    (congrArg ViewerState.postedJobs (updateView_busy true false cam0 gi0 sBusy rfl))).2

/-- C8: a canceled message clears the InFlight flag and changes nothing
else: the published splatIndex attribute and the active instance count
keep the values of the last completed publish. -/
theorem C8_cancel_without_publish (vc : ℕ) (cam : Camera) (gi : GatherInput)
    (s : ViewerState) (_h : s.sortRunning = true) :
    (handleSortWorkerMessage .sortCanceled vc cam gi s).sortRunning = false ∧
    (handleSortWorkerMessage .sortCanceled vc cam gi s).splatIndexAttr = s.splatIndexAttr ∧
    (handleSortWorkerMessage .sortCanceled vc cam gi s).instanceCount = s.instanceCount ∧
    handleSortWorkerMessage .sortCanceled vc cam gi s = { s with sortRunning := false } :=
  ⟨rfl, rfl, rfl, rfl⟩

/-- C9: publishing a completed job with render count n sets the active
instance count to exactly n, for every state and hence independently of
the total scene splat count, and installs the delivered order. -/
theorem C9_publish_instance_count (out : List ℕ) (n vc : ℕ) (cam : Camera)
    (gi : GatherInput) (s : ViewerState) :
    (handleSortWorkerMessage (.sortDone out n) vc cam gi s).instanceCount = n ∧
    (handleSortWorkerMessage (.sortDone out n) vc cam gi s).splatIndexAttr = out :=
  ⟨rfl, rfl⟩

/-- C10: a forced updateView while a sort is in flight is a complete
no-op: the state is returned unchanged, so no job is posted, the in
index array is untouched, the snapshot is untouched and the flag stays
InFlight; force bypasses only the staleness checks, never the
at-most-one-in-flight guard, and nothing is queued. -/
theorem C10_force_keeps_inflight_guard (g : Bool) (cam : Camera) (gi : GatherInput)
    (s : ViewerState) (h : s.sortRunning = true) :
    updateView true g cam gi s = s := by
  rw [updateView_force, submitStage_busy _ _ _ _ _ h]

/-- Witness for C2 at a concrete in-flight state: the dropped request
leaves the in index array unchanged. -/
theorem C2_job_state_machine_attempt :
    sBusy.sortRunning = true ∧
    (updateView false false cam0 gi0 sBusy).inIndexArray = sBusy.inIndexArray :=
  ⟨rfl, (C2_job_state_machine.1 false false cam0 gi0 sBusy rfl).2.1⟩

/-- Witness for C5 at a concrete idle state: a forced updateView posts
unconditionally. -/
theorem C5_view_change_policy_attempt :
    sIdle.sortRunning = false ∧
    (updateView true false camRot gi0 sIdle).postedJobs ≠ sIdle.postedJobs :=
  ⟨rfl, (C5_view_change_policy false camRot gi0 sIdle rfl).2⟩

/-- Witness for C8 at a concrete in-flight state. -/
theorem C8_cancel_without_publish_attempt :
    sBusy.sortRunning = true ∧
    (handleSortWorkerMessage .sortCanceled 3 cam0 gi0 sBusy).splatIndexAttr
      = sBusy.splatIndexAttr :=
  ⟨rfl, (C8_cancel_without_publish 3 cam0 gi0 sBusy rfl).2.1⟩

/-- Witness for C10 at a concrete in-flight state. -/
theorem C10_force_keeps_inflight_guard_attempt :
    sBusy.sortRunning = true ∧ updateView true false cam0 gi0 sBusy = sBusy :=
  ⟨rfl, C10_force_keeps_inflight_guard false cam0 gi0 sBusy rfl⟩

end GS3D
